import Mathlib

/-!
Verification of the task module of rls-vscode (`src/tasks.ts`).

The file shallowly embeds the module: JSON-like configuration values,
the configuration writer (`addBuildCommandsOnOpeningProject`,
`addBuildCommandsByUser`, `addBuildCommands`, `createDefaultTaskConfig`),
and the task provider (`activateTaskProvider`, `deactivateTaskProvider`,
`getCargoTasks`, `createTask`, `resolveTask`).  Host collaborators
(the configuration store update, the notification display, the
registration registry) are made explicit parameters or explicit state.
-/

namespace RlsVscode

/-- JSON-like values, as stored in the host configuration. -/
inductive JValue : Type where
  | null : JValue
  | bool : Bool → JValue
  | num : Int → JValue
  | str : String → JValue
  | arr : List JValue → JValue
  | obj : List (String × JValue) → JValue
deriving Repr

/-- JavaScript truthiness of a JSON value (`!!v` in the source):
`null`, `false`, `0` and the empty string are falsy; arrays and
objects are always truthy. -/
def truthy : JValue → Bool
  | .null => false
  | .bool b => b
  | .num n => n != 0
  | .str s => s != ""
  | .arr _ => true
  | .obj _ => true

/-- The host `WorkspaceConfiguration`: the `tasks` key this module reads
and writes (absent when `none`), plus the remaining keys, which the
module never touches. -/
structure WorkspaceConfiguration : Type where
  tasks : Option JValue
  other : List (String × JValue)
deriving Repr

/-- Result of `getConfiguration()` in the source: the configuration
handle together with `hasOtherTasks = !!config['tasks']`.  An absent
key reads as `undefined`, which is falsy. -/
structure GetConfigurationResult : Type where
  config : WorkspaceConfiguration
  hasOtherTasks : Bool
deriving Repr

/-- `getConfiguration()` from `src/tasks.ts`. -/
def getConfiguration (config : WorkspaceConfiguration) : GetConfigurationResult :=
  { config := config
    hasOtherTasks :=
      match config.tasks with
      | none => false
      | some v => truthy v }

/-- `createDefaultTaskConfig()` from `src/tasks.ts`: the literal
four-task configuration object. -/
def createDefaultTaskConfig : JValue :=
  .obj [
    ("version", .str "2.0.0"),
    ("presentation", .obj [("reveal", .str "always"), ("panel", .str "new")]),
    ("tasks", .arr [
      .obj [("taskName", .str "cargo build"), ("type", .str "shell"),
            ("command", .str "cargo"), ("args", .arr [.str "build"]),
            ("group", .str "build"), ("problemMatcher", .str "$rustc")],
      .obj [("taskName", .str "cargo run"), ("type", .str "shell"),
            ("command", .str "cargo"), ("args", .arr [.str "run"]),
            ("problemMatcher", .str "$rustc")],
      .obj [("taskName", .str "cargo test"), ("type", .str "shell"),
            ("command", .str "cargo"), ("args", .arr [.str "test"]),
            ("group", .str "test"), ("problemMatcher", .str "$rustc")],
      .obj [("taskName", .str "cargo clean"), ("type", .str "shell"),
            ("command", .str "cargo"), ("args", .arr [.str "clean"])]
    ])]

/-- Modelled from the spec: the persisted configuration shape of
section 6 of the specification, written under the `tasks` key
(schema version "2.0.0"), transcribed from the specification text
for comparison with `createDefaultTaskConfig`. -/
def specSection6Block : JValue :=
  .obj [
    ("version", .str "2.0.0"),
    ("presentation", .obj [("reveal", .str "always"), ("panel", .str "new")]),
    ("tasks", .arr [
      .obj [("taskName", .str "cargo build"), ("type", .str "shell"),
            ("command", .str "cargo"), ("args", .arr [.str "build"]),
            ("group", .str "build"), ("problemMatcher", .str "$rustc")],
      .obj [("taskName", .str "cargo run"), ("type", .str "shell"),
            ("command", .str "cargo"), ("args", .arr [.str "run"]),
            ("problemMatcher", .str "$rustc")],
      .obj [("taskName", .str "cargo test"), ("type", .str "shell"),
            ("command", .str "cargo"), ("args", .arr [.str "test"]),
            ("group", .str "test"), ("problemMatcher", .str "$rustc")],
      .obj [("taskName", .str "cargo clean"), ("type", .str "shell"),
            ("command", .str "cargo"), ("args", .arr [.str "clean"])]
    ])]

/-- Outcome of one invocation of the configuration writer: the
configuration store afterwards, the notification message shown to the
user (if any), and whether an error was logged to the console.  The
writer functions are total: every caught failure ends in an outcome,
none propagates. -/
structure WriterOutcome : Type where
  config : WorkspaceConfiguration
  message : Option String
  loggedError : Bool
deriving Repr

/-- A host update operation for `config.update('tasks', v, false)`:
given the current store and the new value it either succeeds with the
updated store or reports an error. -/
def HostUpdate : Type :=
  WorkspaceConfiguration → JValue → Except String WorkspaceConfiguration

/-- The honest host update: writing value `v` under the `tasks` key
succeeds and leaves every other key unchanged. -/
def hostUpdate : HostUpdate :=
  fun config v => .ok { config with tasks := some v }

/-- `addBuildCommands(config)` from `src/tasks.ts`: try to write the
default task configuration; on a host-reported error, log it and show
the failure notification; otherwise show the success notification. -/
def addBuildCommands (config : WorkspaceConfiguration) (update : HostUpdate) :
    WriterOutcome :=
  match update config createDefaultTaskConfig with
  | .error _ =>
    { config := config
      message := some "Could not update tasks.json. Any tasks are not added."
      loggedError := true }
  | .ok config2 =>
    { config := config2
      message := some "Added default build tasks for Rust"
      loggedError := false }

/-- `addBuildCommandsOnOpeningProject()` from `src/tasks.ts`. -/
def addBuildCommandsOnOpeningProject (config : WorkspaceConfiguration)
    (update : HostUpdate) : WriterOutcome :=
  let r := getConfiguration config
  if r.hasOtherTasks then
    { config := r.config, message := none, loggedError := false }
  else
    addBuildCommands r.config update

/-- `addBuildCommandsByUser()` from `src/tasks.ts`. -/
def addBuildCommandsByUser (config : WorkspaceConfiguration)
    (update : HostUpdate) : WriterOutcome :=
  let r := getConfiguration config
  if r.hasOtherTasks then
    { config := r.config
      message := some "tasks.json has other tasks. Any tasks are not added."
      loggedError := false }
  else
    addBuildCommands r.config update

/-- `TaskRevealKind` from the vscode API (only `Always` is used here). -/
inductive TaskRevealKind : Type where
  | Always : TaskRevealKind
  | Silent : TaskRevealKind
  | Never : TaskRevealKind
deriving Repr, DecidableEq

/-- `TaskPanelKind` from the vscode API (only `New` is used here). -/
inductive TaskPanelKind : Type where
  | Shared : TaskPanelKind
  | Dedicated : TaskPanelKind
  | New : TaskPanelKind
deriving Repr, DecidableEq

/-- `TaskPresentationOptions` from the vscode API, the two fields this
module sets. -/
structure TaskPresentationOptions : Type where
  reveal : TaskRevealKind
  panel : TaskPanelKind
deriving Repr, DecidableEq

/-- `TaskGroup` from the vscode API. -/
inductive TaskGroup : Type where
  | Build : TaskGroup
  | Rebuild : TaskGroup
  | Test : TaskGroup
  | Clean : TaskGroup
deriving Repr, DecidableEq

/-- `CargoTaskDefinition` from `src/tasks.ts` (its `type` field is the
literal string "shell"). -/
structure CargoTaskDefinition : Type where
  type : String
  taskName : String
  command : String
  args : List String
deriving Repr, DecidableEq

/-- `TaskConfigItem` from `src/tasks.ts`. -/
structure TaskConfigItem : Type where
  definition : CargoTaskDefinition
  problemMatcher : Option (List String)
  group : Option TaskGroup
  presentationOptions : Option TaskPresentationOptions
deriving Repr, DecidableEq

/-- `ShellExecutionOptions` from the vscode API: the working directory
this module sets. -/
structure ShellExecutionOptions : Type where
  cwd : String
deriving Repr, DecidableEq

/-- `ShellExecution` from the vscode API: a command line executed with
the given options. -/
structure ShellExecution : Type where
  commandLine : String
  options : ShellExecutionOptions
deriving Repr, DecidableEq

/-- A vscode `Task` as constructed by this module: definition, name,
source label, shell execution, problem matchers, and the optional
group and presentation options assigned after construction. -/
structure Task : Type where
  definition : CargoTaskDefinition
  name : String
  source : String
  execution : ShellExecution
  problemMatchers : Option (List String)
  group : Option TaskGroup
  presentationOptions : Option TaskPresentationOptions
deriving Repr, DecidableEq

/-- The fixed `presentationOptions` of `getCargoTasks`. -/
def cargoPresentationOptions : TaskPresentationOptions :=
  { reveal := .Always, panel := .New }

/-- The literal `taskList` of `getCargoTasks` in `src/tasks.ts`. -/
def cargoTaskList : List TaskConfigItem :=
  [ { definition :=
        { taskName := "cargo build", type := "shell", command := "cargo",
          args := ["build"] }
      problemMatcher := some ["$rustc"]
      group := some .Build
      presentationOptions := some cargoPresentationOptions },
    { definition :=
        { taskName := "cargo run", type := "shell", command := "cargo",
          args := ["run"] }
      problemMatcher := some ["$rustc"]
      group := some .Build
      presentationOptions := some cargoPresentationOptions },
    { definition :=
        { taskName := "cargo test", type := "shell", command := "cargo",
          args := ["test"] }
      problemMatcher := some ["$rustc"]
      group := some .Test
      presentationOptions := some cargoPresentationOptions },
    { definition :=
        { taskName := "cargo clean", type := "shell", command := "cargo",
          args := ["clean"] }
      problemMatcher := none
      group := some .Clean
      presentationOptions := some cargoPresentationOptions } ]

/-- `createTask(rootPath, item)` from `src/tasks.ts`: the command line
is the command and the space-joined arguments, the working directory
is the project root, and group and presentation options are assigned
only when present. -/
def createTask (rootPath : String) (item : TaskConfigItem) : Task :=
  { definition := item.definition
    name := item.definition.taskName
    source := "Rust"
    execution :=
      { commandLine :=
          item.definition.command ++ " " ++ String.intercalate " " item.definition.args
        options := { cwd := rootPath } }
    problemMatchers := item.problemMatcher
    group := item.group
    presentationOptions := item.presentationOptions }

/-- Result of `getCargoTasks()`: the task list and whether the missing
project root error was logged. -/
structure GetCargoTasksResult : Type where
  tasks : List Task
  loggedError : Bool
deriving Repr, DecidableEq

/-- `getCargoTasks()` from `src/tasks.ts`, with `workspace.rootPath`
made an explicit argument (`none` models `undefined`). -/
def getCargoTasks (rootPath : Option String) : GetCargoTasksResult :=
  match rootPath with
  | none => { tasks := [], loggedError := true }
  | some root => { tasks := cargoTaskList.map (createTask root), loggedError := false }

/-- The provider's `provideTasks` callback: it returns `getCargoTasks()`. -/
def provideTasks (rootPath : Option String) : GetCargoTasksResult :=
  getCargoTasks rootPath

/-- The provider's `resolveTask` callback from `src/tasks.ts`: it
always returns `undefined`. -/
def resolveTask (_task : Task) : Option Task :=
  none

/-- State of the registration machinery: the module-level
`taskProvider` handle (`null` modelled as `none`), the registrations
currently held by the host, and a counter supplying fresh handles. -/
structure RegistrationState : Type where
  taskProvider : Option Nat
  activeRegistrations : List Nat
  nextHandle : Nat
deriving Repr, DecidableEq

/-- Result of `activateTaskProvider()`: the new state and whether the
already-activated message was logged. -/
structure ActivateResult : Type where
  state : RegistrationState
  loggedAlreadyActivated : Bool
deriving Repr, DecidableEq

/-- `activateTaskProvider()` from `src/tasks.ts`: when the module
handle is already set, log and return; otherwise register the provider
with the host and keep the returned disposable in the handle. -/
def activateTaskProvider (s : RegistrationState) : ActivateResult :=
  match s.taskProvider with
  | some _ => { state := s, loggedAlreadyActivated := true }
  | none =>
    { state :=
        { taskProvider := some s.nextHandle
          activeRegistrations := s.activeRegistrations ++ [s.nextHandle]
          nextHandle := s.nextHandle + 1 }
      loggedAlreadyActivated := false }

/-- `deactivateTaskProvider()` from `src/tasks.ts`: when the handle is
set, dispose it (the host drops the registration); the module handle
itself is not cleared. -/
def deactivateTaskProvider (s : RegistrationState) : RegistrationState :=
  match s.taskProvider with
  | none => s
  | some h => { s with activeRegistrations := s.activeRegistrations.erase h }

/-- Field lookup in a JSON object value. -/
def jObjLookup (v : JValue) (k : String) : Option JValue :=
  match v with
  | .obj fs => (fs.find? (fun p => p.1 == k)).map Prod.snd
  | _ => none

/-- The four entries of the `tasks` array inside the persisted
configuration block produced by `createDefaultTaskConfig`. -/
def persistedTaskEntries : List JValue :=
  match jObjLookup createDefaultTaskConfig "tasks" with
  | some (.arr xs) => xs
  | _ => []

/-- Claim C1: for every initial configuration store with no `tasks`
key, both writer entry points write exactly the fixed four-task block
of section 6 under the `tasks` key, leave all other keys unchanged,
and return the success notification string. -/
theorem addBuildCommands_writes_section6_block
    (cfg : WorkspaceConfiguration) (h : cfg.tasks = none) :
    (addBuildCommandsOnOpeningProject cfg hostUpdate).config.tasks = some specSection6Block
    ∧ (addBuildCommandsOnOpeningProject cfg hostUpdate).config.other = cfg.other
    ∧ (addBuildCommandsOnOpeningProject cfg hostUpdate).message
        = some "Added default build tasks for Rust"
    ∧ (addBuildCommandsByUser cfg hostUpdate).config.tasks = some specSection6Block
    ∧ (addBuildCommandsByUser cfg hostUpdate).config.other = cfg.other
    ∧ (addBuildCommandsByUser cfg hostUpdate).message
        = some "Added default build tasks for Rust" := by
  simp [addBuildCommandsOnOpeningProject, addBuildCommandsByUser, getConfiguration, h,
    addBuildCommands, hostUpdate, createDefaultTaskConfig, specSection6Block]

/-- Witness for claim C1 at the empty store. -/
theorem addBuildCommands_writes_section6_block_witness :
    (addBuildCommandsOnOpeningProject { tasks := none, other := [] } hostUpdate).config.tasks
      = some specSection6Block :=
  (addBuildCommands_writes_section6_block { tasks := none, other := [] } rfl).1

/-- Claim C2: with a defined project root, `provideTasks` returns
exactly 4 descriptors in order build, run, test, clean, each with
shell command "cargo" and the literal argument lists; with an
undefined root it returns the empty list and logs an error. -/
theorem provideTasks_four_descriptors :
    (∀ root : String,
      (provideTasks (some root)).tasks.map
          (fun t => (t.definition.taskName, t.definition.command, t.definition.args))
        = [("cargo build", "cargo", ["build"]),
           ("cargo run", "cargo", ["run"]),
           ("cargo test", "cargo", ["test"]),
           ("cargo clean", "cargo", ["clean"])])
    ∧ (∀ root : String, (provideTasks (some root)).tasks.length = 4)
    ∧ (provideTasks none).tasks = []
    ∧ (provideTasks none).loggedError = true := by
  exact ⟨fun root => rfl, fun root => rfl, rfl, rfl⟩

/-- Counterexample to claim C3: a store whose `tasks` key holds the
falsy value `null` does have a value there, yet `addBuildCommandsByUser`
overwrites the store and returns the success message instead of the
"has other tasks" message, and `addBuildCommandsOnOpeningProject`
also overwrites and returns a message. -/
theorem tasks_null_value_overwritten_cex :
    (addBuildCommandsByUser { tasks := some .null, other := [] } hostUpdate).message
      = some "Added default build tasks for Rust"
    ∧ (addBuildCommandsByUser { tasks := some .null, other := [] } hostUpdate).config.tasks
      = some createDefaultTaskConfig
    ∧ some createDefaultTaskConfig ≠ (some JValue.null)
    ∧ (addBuildCommandsOnOpeningProject { tasks := some .null, other := [] } hostUpdate).message
      = some "Added default build tasks for Rust" := by
  refine ⟨rfl, rfl, ?_, rfl⟩
  intro h
  exact JValue.noConfusion (Option.some.inj h)

/-- Claim C3 amended: for every initial state in which the `tasks` key
holds a truthy value, `addBuildCommandsOnOpeningProject` leaves the
store unchanged and returns no message, and `addBuildCommandsByUser`
leaves the store unchanged and returns the "has other tasks"
notification (for any host update behaviour, since no update is
attempted). -/
theorem truthy_tasks_leave_store_unchanged
    (cfg : WorkspaceConfiguration) (v : JValue) (update : HostUpdate)
    (h : cfg.tasks = some v) (ht : truthy v = true) :
    addBuildCommandsOnOpeningProject cfg update
      = { config := cfg, message := none, loggedError := false }
    ∧ addBuildCommandsByUser cfg update
      = { config := cfg
          message := some "tasks.json has other tasks. Any tasks are not added."
          loggedError := false } := by
  constructor <;>
    simp [addBuildCommandsOnOpeningProject, addBuildCommandsByUser, getConfiguration, h, ht]

/-- Witness for claim C3 as amended, at a store holding an object. -/
theorem truthy_tasks_leave_store_unchanged_witness :
    addBuildCommandsOnOpeningProject { tasks := some (.obj []), other := [] } hostUpdate
      = { config := { tasks := some (.obj []), other := [] }
          message := none, loggedError := false } :=
  (truthy_tasks_leave_store_unchanged _ (.obj []) hostUpdate rfl rfl).1

/-- Counterexample to claim C4: after `activateTaskProvider` and then
`deactivateTaskProvider`, a subsequent `activateTaskProvider` does NOT
perform a new registration: the state is unchanged, no registration is
held, and the already-activated message is logged, because the module
handle was never cleared by `deactivateTaskProvider`. -/
theorem reactivate_after_deactivate_noop_cex :
    (activateTaskProvider (deactivateTaskProvider
        (activateTaskProvider
          { taskProvider := none, activeRegistrations := [], nextHandle := 0 }).state)).state
      = deactivateTaskProvider
          (activateTaskProvider
            { taskProvider := none, activeRegistrations := [], nextHandle := 0 }).state
    ∧ (activateTaskProvider (deactivateTaskProvider
        (activateTaskProvider
          { taskProvider := none, activeRegistrations := [], nextHandle := 0 }).state)).state.activeRegistrations
      = []
    ∧ (activateTaskProvider (deactivateTaskProvider
        (activateTaskProvider
          { taskProvider := none, activeRegistrations := [], nextHandle := 0 }).state)).loggedAlreadyActivated
      = true := by
  exact ⟨rfl, rfl, rfl⟩

/-- Claim C4 amended: `activateTaskProvider` registers only from a
state with no handle; with a handle set it is a logged no-op.
`deactivateTaskProvider` releases the host registration but does not
clear the module handle, so afterwards the handle is still set and a
subsequent `activateTaskProvider` is a no-op rather than a new
registration; with no handle, `deactivateTaskProvider` is a no-op. -/
theorem registration_state_transitions (s : RegistrationState) :
    (s.taskProvider = none →
        (activateTaskProvider s).state.taskProvider = some s.nextHandle
        ∧ (activateTaskProvider s).state.activeRegistrations
            = s.activeRegistrations ++ [s.nextHandle]
        ∧ (activateTaskProvider s).loggedAlreadyActivated = false)
    ∧ (∀ h : Nat, s.taskProvider = some h →
        (activateTaskProvider s).state = s
        ∧ (activateTaskProvider s).loggedAlreadyActivated = true)
    ∧ (∀ h : Nat, s.taskProvider = some h →
        deactivateTaskProvider s
          = { s with activeRegistrations := s.activeRegistrations.erase h }
        ∧ (deactivateTaskProvider s).taskProvider = some h
        ∧ (activateTaskProvider (deactivateTaskProvider s)).state
            = deactivateTaskProvider s)
    ∧ (s.taskProvider = none → deactivateTaskProvider s = s) := by
  refine ⟨fun hn => ?_, fun h hs => ?_, fun h hs => ?_, fun hn => ?_⟩
  · simp [activateTaskProvider, hn]
  · simp [activateTaskProvider, hs]
  · simp [activateTaskProvider, deactivateTaskProvider, hs]
  · simp [deactivateTaskProvider, hn]

/-- Witness for claim C4 as amended, from the initial state. -/
theorem registration_state_transitions_witness :
    (activateTaskProvider
        { taskProvider := none, activeRegistrations := [], nextHandle := 0 }).state.taskProvider
      = some 0 :=
  ((registration_state_transitions
      { taskProvider := none, activeRegistrations := [], nextHandle := 0 }).1 rfl).1

/-- Counterexample to claim C5: the claim predicts the runtime group
column [Build, none, Test, Clean] (run groupless as in the persisted
table); the actual runtime group column is [Build, Build, Test, Clean]:
the run task is assigned group Build at runtime while its persisted
entry has no group field. -/
theorem run_task_group_mismatch_cex :
    ¬ ((getCargoTasks (some "/proj")).tasks.map Task.group
        = [some TaskGroup.Build, none, some TaskGroup.Test, some TaskGroup.Clean])
    ∧ (getCargoTasks (some "/proj")).tasks.map Task.group
        = [some TaskGroup.Build, some TaskGroup.Build,
           some TaskGroup.Test, some TaskGroup.Clean]
    ∧ persistedTaskEntries.map (fun e => jObjLookup e "group")
        = [some (.str "build"), none, some (.str "test"), none] := by
  refine ⟨by decide, rfl, rfl⟩

/-- Claim C5 amended: the runtime task-provider descriptors mirror
the persisted section 6 table in name, type, command, arguments and
problem matcher, differing by adding presentation options
(reveal Always, panel New) to every descriptor, by assigning group
Clean to the clean task, and additionally by assigning group Build to
the run task, which is groupless in the persisted table. -/
theorem runtime_descriptors_mirror_persisted_amended :
    (∀ root : String,
      (getCargoTasks (some root)).tasks.map
          (fun t => (t.definition.taskName, t.definition.type, t.definition.command,
                     t.definition.args, t.problemMatchers, t.group, t.presentationOptions))
        = [("cargo build", "shell", "cargo", ["build"], some ["$rustc"],
             some TaskGroup.Build, some cargoPresentationOptions),
           ("cargo run", "shell", "cargo", ["run"], some ["$rustc"],
             some TaskGroup.Build, some cargoPresentationOptions),
           ("cargo test", "shell", "cargo", ["test"], some ["$rustc"],
             some TaskGroup.Test, some cargoPresentationOptions),
           ("cargo clean", "shell", "cargo", ["clean"], none,
             some TaskGroup.Clean, some cargoPresentationOptions)])
    ∧ persistedTaskEntries.map (fun e =>
          (jObjLookup e "taskName", jObjLookup e "type", jObjLookup e "command",
           jObjLookup e "args", jObjLookup e "problemMatcher", jObjLookup e "group"))
        = [(some (.str "cargo build"), some (.str "shell"), some (.str "cargo"),
             some (.arr [.str "build"]), some (.str "$rustc"), some (.str "build")),
           (some (.str "cargo run"), some (.str "shell"), some (.str "cargo"),
             some (.arr [.str "run"]), some (.str "$rustc"), none),
           (some (.str "cargo test"), some (.str "shell"), some (.str "cargo"),
             some (.arr [.str "test"]), some (.str "$rustc"), some (.str "test")),
           (some (.str "cargo clean"), some (.str "shell"), some (.str "cargo"),
             some (.arr [.str "clean"]), none, none)]
    ∧ cargoPresentationOptions = { reveal := .Always, panel := .New } := by
  exact ⟨fun root => rfl, rfl, rfl⟩

/-- Claim C6: `activateTaskProvider` is idempotent: from a state with
no handle, a first call registers once, and a second call leaves the
state unchanged and logs the already-activated message; starting with
no registrations, exactly one registration is held afterwards. -/
theorem activateTaskProvider_idempotent (s : RegistrationState)
    (h : s.taskProvider = none) :
    (activateTaskProvider (activateTaskProvider s).state).state
      = (activateTaskProvider s).state
    ∧ (activateTaskProvider (activateTaskProvider s).state).loggedAlreadyActivated = true
    ∧ (activateTaskProvider s).state.activeRegistrations
        = s.activeRegistrations ++ [s.nextHandle]
    ∧ (s.activeRegistrations = [] →
        (activateTaskProvider (activateTaskProvider s).state).state.activeRegistrations.length
          = 1) := by
  simp [activateTaskProvider, h]

/-- Witness for claim C6, from the initial state. -/
theorem activateTaskProvider_idempotent_witness :
    (activateTaskProvider (activateTaskProvider
        { taskProvider := none, activeRegistrations := [], nextHandle := 0 }).state).state
      = (activateTaskProvider
          { taskProvider := none, activeRegistrations := [], nextHandle := 0 }).state :=
  (activateTaskProvider_idempotent
      { taskProvider := none, activeRegistrations := [], nextHandle := 0 } rfl).1

/-- Claim C7: whenever the host update reports an error,
`addBuildCommands` logs the error, returns the failure notification
string, and leaves the store unchanged; the same outcome reaches the
caller of either writer entry point (the functions are total, so no
exception propagates). -/
theorem update_failure_handled (cfg : WorkspaceConfiguration) (e : String) :
    addBuildCommands cfg (fun _ _ => .error e)
      = { config := cfg
          message := some "Could not update tasks.json. Any tasks are not added."
          loggedError := true }
    ∧ (cfg.tasks = none →
        addBuildCommandsOnOpeningProject cfg (fun _ _ => .error e)
          = { config := cfg
              message := some "Could not update tasks.json. Any tasks are not added."
              loggedError := true }
        ∧ addBuildCommandsByUser cfg (fun _ _ => .error e)
          = { config := cfg
              message := some "Could not update tasks.json. Any tasks are not added."
              loggedError := true }) := by
  refine ⟨rfl, fun h => ?_⟩
  constructor <;>
    simp [addBuildCommandsOnOpeningProject, addBuildCommandsByUser, getConfiguration, h,
      addBuildCommands]

/-- Witness for claim C7 at a concrete store and error. -/
theorem update_failure_handled_witness :
    addBuildCommands { tasks := none, other := [] } (fun _ _ => .error "EACCES")
      = { config := { tasks := none, other := [] }
          message := some "Could not update tasks.json. Any tasks are not added."
          loggedError := true } :=
  (update_failure_handled { tasks := none, other := [] } "EACCES").1

/-- Claim C8: every descriptor produced with root `root` carries the
space-joined command line ("cargo build", "cargo run", "cargo test",
"cargo clean") and working directory `root`; in general `createTask`
joins command and arguments with single spaces and sets the cwd to the
project root. The scenario root "/proj" is the instance at "/proj". -/
theorem commandLine_space_joined_cwd_root (root : String) :
    ((getCargoTasks (some root)).tasks.map
        (fun t => (t.execution.commandLine, t.execution.options.cwd))
      = [("cargo build", root), ("cargo run", root),
         ("cargo test", root), ("cargo clean", root)])
    ∧ (∀ item : TaskConfigItem,
        (createTask root item).execution.commandLine
          = item.definition.command ++ " " ++ String.intercalate " " item.definition.args
        ∧ (createTask root item).execution.options.cwd = root) := by
  exact ⟨rfl, fun item => ⟨rfl, rfl⟩⟩

/-- Claim C9: the registered provider's `resolveTask` always declines,
returning no task. -/
theorem resolveTask_declines (t : Task) : resolveTask t = none := rfl

/-- Claim C10: the presence check is a truthiness check: when the
`tasks` key holds any of the falsy values null, false, 0 or the empty
string, both writer entry points treat it as absent and overwrite it
with the default four-task block, returning the success message. -/
theorem falsy_tasks_treated_absent (cfg : WorkspaceConfiguration) (v : JValue)
    (h : cfg.tasks = some v)
    (hf : v = .null ∨ v = .bool false ∨ v = .num 0 ∨ v = .str "") :
    (addBuildCommandsOnOpeningProject cfg hostUpdate).config.tasks
        = some createDefaultTaskConfig
    ∧ (addBuildCommandsOnOpeningProject cfg hostUpdate).message
        = some "Added default build tasks for Rust"
    ∧ (addBuildCommandsByUser cfg hostUpdate).config.tasks
        = some createDefaultTaskConfig
    ∧ (addBuildCommandsByUser cfg hostUpdate).message
        = some "Added default build tasks for Rust" := by
  have ht : truthy v = false := by
    rcases hf with rfl | rfl | rfl | rfl <;> decide
  simp [addBuildCommandsOnOpeningProject, addBuildCommandsByUser, getConfiguration, h, ht,
    addBuildCommands, hostUpdate]

/-- Witness for claim C10 at the value false. -/
theorem falsy_tasks_treated_absent_witness :
    (addBuildCommandsOnOpeningProject
        { tasks := some (.bool false), other := [] } hostUpdate).config.tasks
      = some createDefaultTaskConfig :=
  (falsy_tasks_treated_absent { tasks := some (.bool false), other := [] }
      (.bool false) rfl (Or.inr (Or.inl rfl))).1

end RlsVscode
